import Mathlib

/-!
Shallow embedding of the HTTP forwarding core of `src/server.mjs` (mytv):
URL validator, retrying fetcher, header sanitizer, response dispatcher and
the two aggregation endpoints, together with theorems settling the
specification claims about them.

JavaScript strings are modelled as Lean `String`; JS objects used as maps
(header maps, the site registry) are modelled as association lists or
lookup functions; `undefined`-able query parameters as `Option String`
(JS truthiness of a string value: `undefined` and `""` are falsy).
Exception-based control flow (`axios` throwing, `try`/`catch`) is modelled
with `Except`.
-/

namespace MyTV

/-! ### Kernel-friendly string helpers (semantics of JS built-ins used by the source) -/

/-- JS `String.prototype.startsWith`, via the character list. -/
def strStartsWith (s pat : String) : Bool :=
  pat.data.isPrefixOf s.data

/-- Auxiliary substring search on character lists. -/
def listIncludes : List Char → List Char → Bool
  | l, pat =>
    if pat.isPrefixOf l then true
    else
      match l with
      | [] => false
      | _ :: t => listIncludes t pat

/-- JS `String.prototype.includes`. -/
def strIncludes (s pat : String) : Bool :=
  listIncludes s.data pat.data

/-- ASCII lower-casing of one character (used to state case-insensitive
header-name comparison). -/
def asciiLowerChar (c : Char) : Char :=
  if 65 ≤ c.toNat && c.toNat ≤ 90 then Char.ofNat (c.toNat + 32) else c

/-- ASCII lower-casing of a string. -/
def asciiLower (s : String) : String :=
  String.mk (s.data.map asciiLowerChar)

/-- Characters the ECMAScript built-in `encodeURIComponent` leaves unescaped:
`A-Z a-z 0-9 - _ . ! ~ * ' ( )` (given here by code point). -/
def isUnreservedUriChar (c : Char) : Bool :=
  (65 ≤ c.toNat && c.toNat ≤ 90) || (97 ≤ c.toNat && c.toNat ≤ 122) ||
  (48 ≤ c.toNat && c.toNat ≤ 57) ||
  [45, 95, 46, 33, 126, 42, 39, 40, 41].contains c.toNat

/-- Upper-case hexadecimal digit for `n < 16`. -/
def hexDigitChar (n : Nat) : Char :=
  if n < 10 then Char.ofNat (48 + n) else Char.ofNat (55 + n)

/-- `%XX` escape of one byte value. -/
def percentEncodeByte (b : Nat) : String :=
  String.mk [Char.ofNat 37, hexDigitChar (b / 16), hexDigitChar (b % 16)]

/-- UTF-8 byte values of one character. -/
def utf8ByteVals (c : Char) : List Nat :=
  let n := c.toNat
  if n < 128 then [n]
  else if n < 2048 then [192 + n / 64, 128 + n % 64]
  else if n < 65536 then [224 + n / 4096, 128 + n / 64 % 64, 128 + n % 64]
  else [240 + n / 262144, 128 + n / 4096 % 64, 128 + n / 64 % 64, 128 + n % 64]

/-- The ECMAScript built-in `encodeURIComponent`: unreserved characters are
kept, every other character is replaced by the `%XX` escapes of its UTF-8
bytes. -/
def encodeURIComponent (s : String) : String :=
  s.data.foldl
    (fun acc c =>
      if isUnreservedUriChar c then acc.push c
      else (utf8ByteVals c).foldl (fun a b => a ++ percentEncodeByte b) acc)
    ""

/-! ### URL validator (`isValidUrl`, src/server.mjs lines 101-123)

The WHATWG `URL` constructor is a platform built-in external to the
repository; it is abstracted as a `parse` function returning the parts the
validator inspects (`protocol`, with its trailing colon as in JS, and
`hostname`), or `none` when the constructor would throw. -/

/-- The parts of a parsed absolute URL that `isValidUrl` inspects. -/
structure URL where
  protocol : String
  hostname : String
deriving DecidableEq

/-- `const allowedProtocols = ['http:', 'https:']` (line 104). -/
def allowedProtocols : List String := ["http:", "https:"]

/-- Default of `process.env.BLOCKED_HOSTS`, i.e.
the result of `'localhost,127.0.0.1,0.0.0.0,::1'.split(',')` (line 107). -/
def defaultBlockedHostnames : List String :=
  ["localhost", "127.0.0.1", "0.0.0.0", "::1"]

/-- Default of `process.env.BLOCKED_IP_PREFIXES`, i.e.
the result of `'192.168.,10.,172.'.split(',')` (line 110). -/
def defaultBlockedHostPrefixes : List String :=
  ["192.168.", "10.", "172."]

/-- `isValidUrl` (lines 101-123): parse failure yields `false` via the
`catch`; then the protocol allow-list, the exact hostname block-list, and
the hostname prefix block-list are checked in order. -/
def isValidUrl (parse : String → Option URL)
    (blockedHostnames blockedPrefixList : List String)
    (urlString : String) : Bool :=
  match parse urlString with
  | none => false
  | some parsed =>
    if !(allowedProtocols.contains parsed.protocol) then false
    else if blockedHostnames.contains parsed.hostname then false
    else if blockedPrefixList.any (fun p => strStartsWith parsed.hostname p) then false
    else true

/-! ### Header sanitizer (src/server.mjs lines 174-180)

`const headers = { ...response.headers }` copies the upstream header map;
`sensitiveHeaders.forEach(header => delete headers[header])` then deletes
each filtered name as an exact object key. A header map is an association
list (JS object keys are unique; nothing below depends on uniqueness). -/

/-- Default of `process.env.FILTERED_HEADERS`, i.e. the result of
`'content-security-policy,cookie,set-cookie,x-frame-options,access-control-allow-origin'.split(',')`
(lines 175-178). -/
def defaultFilteredHeaders : List String :=
  ["content-security-policy", "cookie", "set-cookie", "x-frame-options",
   "access-control-allow-origin"]

/-- The copy-then-delete loop of lines 174-179: the result keeps exactly the
entries whose key is not (by exact string match) in `sensitiveHeaders`. -/
def sanitizeHeaders (sensitiveHeaders : List String)
    (headers : List (String × String)) : List (String × String) :=
  headers.filter (fun h => !(sensitiveHeaders.contains h.1))

/-! ### Retrying fetcher (`makeRequest`, src/server.mjs lines 148-171)

One axios call per attempt; the upstream's behaviour on attempt number `k`
(0-based: `k` equals the value of the closure variable `retries` at call
time) is modelled as a function `Nat → Except ε α`. The recursion of the
source, `if (retries < maxRetries) { retries++; return makeRequest(); }
throw error`, is expressed with `fuel = maxRetries - retries` remaining
retries, so `retries < maxRetries` is exactly `fuel ≠ 0`. Besides the
source's result, the second component instruments the total number of
upstream calls made. -/

/-- The body of `makeRequest` at closure state `retries`, with
`fuel = maxRetries - retries` retries still allowed. -/
def makeRequestAux {ε α : Type} (upstream : Nat → Except ε α) :
    Nat → Nat → Except ε α × Nat
  | fuel, retries =>
    match upstream retries with
    | Except.ok r => (Except.ok r, 1)
    | Except.error e =>
      match fuel with
      | 0 => (Except.error e, 1)
      | fuel' + 1 =>
        let nxt := makeRequestAux upstream fuel' (retries + 1)
        (nxt.1, nxt.2 + 1)

/-- `makeRequest` (lines 151-171): the closure starts with `retries = 0`,
hence `maxRetries` retries remain. -/
def makeRequest {ε α : Type} (upstream : Nat → Except ε α) (maxRetries : Nat) :
    Except ε α × Nat :=
  makeRequestAux upstream maxRetries 0

/-! ### Axios results and the proxy route (src/server.mjs lines 133-200) -/

/-- A resolved axios response (the promise fulfilled, i.e. the upstream
status satisfied axios's default `validateStatus`, a 2xx check). `δ` is the
type of response payloads (parsed JSON document or stream handle). -/
structure AxiosResponse (δ : Type) where
  status : Nat
  headers : List (String × String)
  data : δ
deriving DecidableEq

/-- The body attached to `error.response.data`: a pipeable stream, a
non-pipeable value rendered as text (JS-falsy exactly when `""`), or
absent. -/
inductive ErrorData (δ : Type) where
  | pipeableStream (d : δ)
  | textual (s : String)
  | absent
deriving DecidableEq

/-- `error.response` of a rejected axios call: the upstream answered with a
fault status. -/
structure AxiosErrorResponse (δ : Type) where
  status : Nat
  data : ErrorData δ
deriving DecidableEq

/-- A rejected axios call: `error.message`, and `error.response` present
exactly when some upstream status was obtained. -/
structure AxiosError (δ : Type) where
  message : String
  response : Option (AxiosErrorResponse δ)
deriving DecidableEq

/-- What the route handler writes into the Express response `res`. -/
inductive ResponseBody (δ : Type) where
  | text (s : String)
  | jsonData (d : δ)
  | piped (d : δ)
deriving DecidableEq

/-- One client-visible response: status, headers set via `res.set`, body. -/
structure ClientResponse (δ : Type) where
  status : Nat
  headers : List (String × String)
  body : ResponseBody δ
deriving DecidableEq

/-- `error.response.status || 500` (lines 191 and 194): JS `||` replaces a
falsy (zero) status by 500. -/
def orElse500 (status : Nat) : Nat :=
  if status = 0 then 500 else status

/-- `const isApi = targetUrl.includes('/api.php/provide/vod') ||
req.headers.accept?.includes('application/json')` (line 146); an absent
Accept header short-circuits to falsy. -/
def isApiRequest (targetUrl : String) (accept : Option String) : Bool :=
  strIncludes targetUrl "/api.php/provide/vod" ||
    (match accept with
     | some a => strIncludes a "application/json"
     | none => false)

/-- Lines 174-186: sanitize the upstream headers, `res.set(headers)`, then
`res.json(response.data)` in API mode or `response.data.pipe(res)` in
stream mode. Neither call sets a status, so the Express default
`res.statusCode = 200` is what the client receives in both modes. -/
def dispatchSuccess {δ : Type} (sensitiveHeaders : List String) (isApi : Bool)
    (response : AxiosResponse δ) : ClientResponse δ :=
  let headers := sanitizeHeaders sensitiveHeaders response.headers
  if isApi then
    { status := 200, headers := headers, body := ResponseBody.jsonData response.data }
  else
    { status := 200, headers := headers, body := ResponseBody.piped response.data }

/-- The `catch` block, lines 187-199: with `error.response` present, a
pipeable body is piped under `error.response.status || 500`, a non-pipeable
body is sent under that status with `error.response.data || '代理请求失败'`;
without `error.response`, status 500 with `` `请求失败: ${error.message}` ``. -/
def dispatchError {δ : Type} (e : AxiosError δ) : ClientResponse δ :=
  match e.response with
  | some r =>
    match r.data with
    | ErrorData.pipeableStream d =>
      { status := orElse500 r.status, headers := [], body := ResponseBody.piped d }
    | ErrorData.textual s =>
      { status := orElse500 r.status, headers := [],
        body := ResponseBody.text (if s = "" then "代理请求失败" else s) }
    | ErrorData.absent =>
      { status := orElse500 r.status, headers := [],
        body := ResponseBody.text "代理请求失败" }
  | none =>
    { status := 500, headers := [], body := ResponseBody.text ("请求失败: " ++ e.message) }

/-- The `GET /proxy/:encodedUrl` handler (lines 133-200) on the decoded
target URL: validation rejection answers 400 before any upstream call (the
second component counts upstream calls, 0 here); otherwise the result of
the retrying fetcher is dispatched. -/
def proxyHandler {δ : Type} (parse : String → Option URL)
    (blockedHostnames blockedPrefixList sensitiveHeaders : List String)
    (maxRetries : Nat) (accept : Option String) (targetUrl : String)
    (upstream : Nat → Except (AxiosError δ) (AxiosResponse δ)) :
    ClientResponse δ × Nat :=
  if isValidUrl parse blockedHostnames blockedPrefixList targetUrl = false then
    ({ status := 400, headers := [], body := ResponseBody.text "无效的 URL" }, 0)
  else
    let isApi := isApiRequest targetUrl accept
    let result := makeRequest upstream maxRetries
    match result.1 with
    | Except.ok response => (dispatchSuccess sensitiveHeaders isApi response, result.2)
    | Except.error e => (dispatchError e, result.2)

/-! ### Aggregation composer (src/server.mjs lines 202-260)

`API_SITES` and `API_CONFIG` come from `js/config.js`, an external registry
file outside this source slice; they are parameters here: the registry is a
lookup function `String → Option SiteEntry`, the designated default entry
is `API_SITES.heimuer`, and each operation's `API_CONFIG.<op>.path` is a
string. Query parameters from `req.query` are `Option String`
(`undefined` when absent). The delegated loopback call
`axios.get('http://localhost:...' + proxyUrl)` is a parameter
`delegate : String → Except String δ`, applied to the composed upstream
URL (the `/proxy/` wrapping of line 227/251 is a bijective encoding of that
URL and is dropped); a `delegate` failure carries `error.message`. -/

/-- One `API_SITES` registry entry (only its `api` base URL is read). -/
structure SiteEntry where
  api : String
deriving DecidableEq

/-- JS truthiness of an optional string value: `undefined` and `""` are
falsy, every other string truthy. -/
def truthyOpt : Option String → Bool
  | none => false
  | some s => s ≠ ""

/-- The guard `source && API_SITES[source]` (lines 220 and 245) as an
optional registry entry: `some` exactly when `source` is truthy and the
registry has it. -/
def lookupSource (sites : String → Option SiteEntry) :
    Option String → Option SiteEntry
  | none => none
  | some s => if s = "" then none else sites s

/-- `/api/search` URL composition (lines 216-225):
`customApi` branch, then `source && API_SITES[source]` branch, then the
`heimuer` default; each appends `API_CONFIG.search.path` and
`encodeURIComponent(wd)` where `wd` defaults to `''`. -/
def composeSearchUrl (sites : String → Option SiteEntry)
    (heimuerEntry : SiteEntry) (searchPath : String)
    (wd source customApi : Option String) : String :=
  let w := wd.getD ""
  if truthyOpt customApi then
    customApi.getD "" ++ searchPath ++ encodeURIComponent w
  else
    match lookupSource sites source with
    | some entry => entry.api ++ searchPath ++ encodeURIComponent w
    | none => heimuerEntry.api ++ searchPath ++ encodeURIComponent w

/-- `/api/detail` URL composition (lines 241-249): same base resolution,
appending `API_CONFIG.detail.path` and the raw `id` (which defaults to
`''`); unlike the search branch, the source interpolates `${id}` without
`encodeURIComponent`. -/
def composeDetailUrl (sites : String → Option SiteEntry)
    (heimuerEntry : SiteEntry) (detailPath : String)
    (id source customApi : Option String) : String :=
  let i := id.getD ""
  if truthyOpt customApi then
    customApi.getD "" ++ detailPath ++ i
  else
    match lookupSource sites source with
    | some entry => entry.api ++ detailPath ++ i
    | none => heimuerEntry.api ++ detailPath ++ i

/-- The base-resolution rule shared by both compositions, stated once for
the theorems below. -/
def resolveBase (sites : String → Option SiteEntry) (heimuerEntry : SiteEntry)
    (source customApi : Option String) : String :=
  if truthyOpt customApi then customApi.getD ""
  else
    match lookupSource sites source with
    | some entry => entry.api
    | none => heimuerEntry.api

/-- Modelled from the spec: the detail composition as §4.5 words it, with
the query parameter URL-encoded ("the URL-encoded query parameter (search
keyword or detail id)"); written only to be compared with
`composeDetailUrl`, which follows the source. -/
def specComposeDetailUrl (sites : String → Option SiteEntry)
    (heimuerEntry : SiteEntry) (detailPath : String)
    (id source customApi : Option String) : String :=
  resolveBase sites heimuerEntry source customApi ++ detailPath ++
    encodeURIComponent (id.getD "")

/-- The structured error envelope `{code: 500, msg: ..., error: ...}` of
lines 234 and 258. -/
structure ErrorEnvelope where
  code : Nat
  msg : String
  error : String
deriving DecidableEq

/-- Body of an aggregation response: `res.json(response.data)` on success,
the envelope on failure. No stream constructor exists on this surface. -/
inductive AggBody (δ : Type) where
  | jsonData (d : δ)
  | envelope (e : ErrorEnvelope)
deriving DecidableEq

/-- One aggregation-endpoint response: HTTP status and JSON body. -/
structure AggResponse (δ : Type) where
  status : Nat
  body : AggBody δ
deriving DecidableEq

/-- The `GET /api/search` handler (lines 214-236): delegate the composed
URL; success answers `res.json(...)` (status 200), any failure answers
`res.status(500).json({code: 500, msg: 'API聚合失败', error: ...})`. -/
def searchHandler {δ : Type} (delegate : String → Except String δ)
    (sites : String → Option SiteEntry) (heimuerEntry : SiteEntry)
    (searchPath : String) (wd source customApi : Option String) :
    AggResponse δ :=
  match delegate (composeSearchUrl sites heimuerEntry searchPath wd source customApi) with
  | Except.ok d => { status := 200, body := AggBody.jsonData d }
  | Except.error m =>
    { status := 500, body := AggBody.envelope ⟨500, "API聚合失败", m⟩ }

/-- The `GET /api/detail` handler (lines 239-260): same shape with the
detail composition and the message `'详情API失败'`. -/
def detailHandler {δ : Type} (delegate : String → Except String δ)
    (sites : String → Option SiteEntry) (heimuerEntry : SiteEntry)
    (detailPath : String) (id source customApi : Option String) :
    AggResponse δ :=
  match delegate (composeDetailUrl sites heimuerEntry detailPath id source customApi) with
  | Except.ok d => { status := 200, body := AggBody.jsonData d }
  | Except.error m =>
    { status := 500, body := AggBody.envelope ⟨500, "详情API失败", m⟩ }

/-! ### Concrete instances used in witnesses and counterexamples -/

/-- A concrete parse oracle for the URLs appearing in witnesses and
counterexamples, giving the parts the WHATWG `URL` constructor would. -/
def exampleParse : String → Option URL := fun s =>
  if s = "http://example.com/video.mp4" then
    some { protocol := "http:", hostname := "example.com" }
  else if s = "http://127.0.0.1/x" then
    some { protocol := "http:", hostname := "127.0.0.1" }
  else if s = "http://api.example.com/api.php/provide/vod/?wd=a" then
    some { protocol := "http:", hostname := "api.example.com" }
  else none

/-- A concrete upstream that fails transport on attempt 0 and succeeds on
attempt 1. -/
def exampleUpstreamFlaky : Nat → Except String Nat := fun k =>
  if k = 0 then Except.error "ECONNRESET" else Except.ok 7

/-- A concrete 206 upstream response carrying a `set-cookie` header and a
stream payload (payloads are `Nat` tags in the concrete scenarios). -/
def exampleStreamResponse : AxiosResponse Nat :=
  { status := 206,
    headers := [("set-cookie", "a=b"), ("content-type", "video/mp4")],
    data := 42 }

/-- A concrete upstream failing transport (no response obtained) on every
attempt. -/
def exampleTransportUpstream : Nat → Except (AxiosError Nat) (AxiosResponse Nat) :=
  fun _ => Except.error { message := "connect ECONNREFUSED", response := none }

/-- A concrete upstream answering 404 with a non-streamable body on every
attempt. -/
def exampleStatusFaultUpstream : Nat → Except (AxiosError Nat) (AxiosResponse Nat) :=
  fun _ => Except.error
    { message := "Request failed with status code 404",
      response := some { status := 404, data := ErrorData.textual "Not Found" } }

/-! ### Helper lemmas -/

/-- `isValidUrl` on a successfully parsed URL, as one Boolean formula. -/
theorem isValidUrl_eq_of_parse {parse : String → Option URL}
    {bh bp : List String} {s : String} {u : URL} (h : parse s = some u) :
    isValidUrl parse bh bp s =
      (allowedProtocols.contains u.protocol && !(bh.contains u.hostname) &&
        !(bp.any (fun p => strStartsWith u.hostname p))) := by
  unfold isValidUrl
  rw [h]
  cases hc : allowedProtocols.contains u.protocol <;>
    cases hh : bh.contains u.hostname <;>
      cases hp : bp.any (fun p => strStartsWith u.hostname p) <;>
        simp_all

/-- If every attempt in the remaining budget fails, `makeRequestAux`
consumes the whole budget and surfaces the error of the last attempt. -/
theorem makeRequestAux_all_fail {ε α : Type} (upstream : Nat → Except ε α) :
    ∀ fuel retries : Nat,
      (∀ k, retries ≤ k → k ≤ retries + fuel → ∃ e, upstream k = Except.error e) →
      ∃ e, upstream (retries + fuel) = Except.error e ∧
        makeRequestAux upstream fuel retries = (Except.error e, fuel + 1) := by
  intro fuel
  induction fuel with
  | zero =>
    intro retries hfail
    obtain ⟨e, he⟩ := hfail retries (Nat.le_refl _) (Nat.le_refl _)
    refine ⟨e, he, ?_⟩
    unfold makeRequestAux
    rw [he]
  | succ m ih =>
    intro retries hfail
    obtain ⟨e0, he0⟩ := hfail retries (Nat.le_refl _) (by omega)
    obtain ⟨e, he, hrec⟩ := ih (retries + 1) (fun k hk1 hk2 => hfail k (by omega) (by omega))
    refine ⟨e, ?_, ?_⟩
    · rw [show retries + (m + 1) = retries + 1 + m by omega]
      exact he
    · unfold makeRequestAux
      rw [he0]
      simp [hrec]

/-- If the first success comes after `d` failures and fits in the budget,
`makeRequestAux` returns it after `d + 1` attempts. -/
theorem makeRequestAux_first_success {ε α : Type} (upstream : Nat → Except ε α) :
    ∀ d fuel retries : Nat, ∀ r : α, upstream (retries + d) = Except.ok r →
      (∀ i, i < d → ∃ e, upstream (retries + i) = Except.error e) →
      d ≤ fuel →
      makeRequestAux upstream fuel retries = (Except.ok r, d + 1) := by
  intro d
  induction d with
  | zero =>
    intro fuel retries r hok _ _
    rw [Nat.add_zero] at hok
    unfold makeRequestAux
    rw [hok]
  | succ m ih =>
    intro fuel retries r hok hfail hle
    obtain ⟨e0, he0⟩ := hfail 0 (Nat.succ_pos m)
    rw [Nat.add_zero] at he0
    obtain ⟨fuel', rfl⟩ : ∃ f, fuel = f + 1 := ⟨fuel - 1, by omega⟩
    unfold makeRequestAux
    rw [he0]
    have hrec := ih fuel' (retries + 1) r
      (by rw [show retries + 1 + m = retries + (m + 1) by omega]; exact hok)
      (fun i hi => by
        obtain ⟨e, he⟩ := hfail (i + 1) (by omega)
        exact ⟨e, by rw [show retries + 1 + i = retries + (i + 1) by omega]; exact he⟩)
      (by omega)
    simp [hrec]

/-! ### Claim theorems -/

/-- C1: `isValidUrl` returns `true` exactly when the string parses as an
absolute URL whose scheme is http/https, whose hostname is in neither the
denied-hostname set nor started by a denied prefix; in particular a parse
failure yields `false` (a returned value, the function is total — never an
exception), and every denied input yields `false`. -/
theorem isValidUrl_true_iff (parse : String → Option URL)
    (blockedHostnames blockedPrefixList : List String) (s : String) :
    isValidUrl parse blockedHostnames blockedPrefixList s = true ↔
      ∃ u, parse s = some u ∧ u.protocol ∈ allowedProtocols ∧
        u.hostname ∉ blockedHostnames ∧
        ∀ p ∈ blockedPrefixList, strStartsWith u.hostname p = false := by
  cases h : parse s with
  | none =>
    unfold isValidUrl
    rw [h]
    simp
  | some u =>
    rw [isValidUrl_eq_of_parse h]
    simp [h, List.any_eq_false, and_assoc]

/-- C2: when every attempt up to `maxRetries` fails, `makeRequest` makes
exactly `maxRetries + 1` upstream calls and surfaces the final attempt's
failure; when the first success is attempt `j` (0-based, so the
`(j + 1)`-st attempt, `j + 1 ≤ maxRetries + 1`), it returns that success
after exactly `j + 1` calls, making no further attempts. -/
theorem makeRequest_retry_spec {ε α : Type} (upstream : Nat → Except ε α)
    (maxRetries : Nat) :
    ((∀ k, k ≤ maxRetries → ∃ e, upstream k = Except.error e) →
      ∃ e, upstream maxRetries = Except.error e ∧
        makeRequest upstream maxRetries = (Except.error e, maxRetries + 1))
    ∧ (∀ j r, j ≤ maxRetries → upstream j = Except.ok r →
        (∀ i, i < j → ∃ e, upstream i = Except.error e) →
        makeRequest upstream maxRetries = (Except.ok r, j + 1)) := by
  constructor
  · intro hfail
    obtain ⟨e, he, h⟩ :=
      makeRequestAux_all_fail upstream maxRetries 0 (fun k h1 h2 => hfail k (by omega))
    rw [Nat.zero_add] at he
    exact ⟨e, he, h⟩
  · intro j r hj hok hfail
    refine makeRequestAux_first_success upstream j maxRetries 0 r ?_ ?_ hj
    · rw [Nat.zero_add]
      exact hok
    · intro i hi
      obtain ⟨e, he⟩ := hfail i hi
      exact ⟨e, by rw [Nat.zero_add]; exact he⟩

/-- Witness for C2: a flaky upstream failing attempt 0 and succeeding on
attempt 1 returns the success after 2 calls with budget `maxRetries = 2`;
an always-failing upstream with the same budget makes 3 calls and surfaces
the error. -/
theorem makeRequest_retry_spec_witness :
    makeRequest exampleUpstreamFlaky 2 = (Except.ok 7, 2) ∧
    makeRequest (fun _ => (Except.error "timeout" : Except String Nat)) 2
      = (Except.error "timeout", 3) := by
  constructor
  · refine (makeRequest_retry_spec exampleUpstreamFlaky 2).2 1 7 (by omega) rfl ?_
    intro i hi
    refine ⟨"ECONNRESET", ?_⟩
    have h0 : i = 0 := by omega
    subst h0
    rfl
  · obtain ⟨e, he, h⟩ :=
      (makeRequest_retry_spec (fun _ => (Except.error "timeout" : Except String Nat)) 2).1
        (fun k _ => ⟨"timeout", rfl⟩)
    have he' : e = "timeout" := by
      simpa using he.symm
    subst he'
    exact h

/-- Membership in a sanitized header map: exactly the input entries whose
name is not an exact member of the filter list. -/
theorem sanitizeHeaders_mem_iff (fl : List String)
    (headers : List (String × String)) (hd : String × String) :
    hd ∈ sanitizeHeaders fl headers ↔ hd ∈ headers ∧ hd.1 ∉ fl := by
  unfold sanitizeHeaders
  rw [List.mem_filter]
  simp

/-- C5 counterexample: the upstream header name `Set-Cookie` matches the
default filter entry `set-cookie` case-insensitively, yet it survives
sanitization untouched — the delete loop matches names exactly, not
case-insensitively. -/
theorem sanitizeHeaders_not_case_insensitive :
    asciiLower "Set-Cookie" = "set-cookie" ∧
    "set-cookie" ∈ defaultFilteredHeaders ∧
    sanitizeHeaders defaultFilteredHeaders [("Set-Cookie", "a=b")]
      = [("Set-Cookie", "a=b")] := by
  refine ⟨?_, ?_, ?_⟩ <;> decide

/-- C5 (amended): sanitization removes exactly the headers whose name is an
exact (case-sensitive) match of a filter entry: every output entry is an
entry of the input, with its value unchanged, whose name is not in the
filter list, and every input entry whose name is not in the filter list is
in the output; the input map is not mutated (the transform returns a new
list built by `filter`). -/
theorem sanitizeHeaders_spec (fl : List String)
    (headers : List (String × String)) :
    (∀ hd ∈ sanitizeHeaders fl headers, hd ∈ headers ∧ hd.1 ∉ fl) ∧
    (∀ hd ∈ headers, hd.1 ∉ fl → hd ∈ sanitizeHeaders fl headers) := by
  constructor
  · intro hd hmem
    exact (sanitizeHeaders_mem_iff fl headers hd).1 hmem
  · intro hd hmem hnot
    exact (sanitizeHeaders_mem_iff fl headers hd).2 ⟨hmem, hnot⟩

/-- Witness for C5: a non-filtered header survives sanitization. -/
theorem sanitizeHeaders_spec_witness :
    ("content-type", "video/mp4") ∈
      sanitizeHeaders defaultFilteredHeaders
        [("content-type", "video/mp4"), ("set-cookie", "a=b")] :=
  (sanitizeHeaders_spec defaultFilteredHeaders
      [("content-type", "video/mp4"), ("set-cookie", "a=b")]).2
    ("content-type", "video/mp4") (by decide) (by decide)

/-- The handler on a validation failure: 400, `无效的 URL`, 0 upstream calls. -/
theorem proxyHandler_invalid {δ : Type} (parse : String → Option URL)
    (bh bp fl : List String) (maxRetries : Nat) (accept : Option String)
    (targetUrl : String) (upstream : Nat → Except (AxiosError δ) (AxiosResponse δ))
    (h : isValidUrl parse bh bp targetUrl = false) :
    proxyHandler parse bh bp fl maxRetries accept targetUrl upstream
      = ({ status := 400, headers := [], body := ResponseBody.text "无效的 URL" }, 0) := by
  unfold proxyHandler
  simp [h]

/-- The handler on a valid URL with a fulfilled fetch dispatches the
success under the computed content mode. -/
theorem proxyHandler_valid_ok {δ : Type} (parse : String → Option URL)
    (bh bp fl : List String) (maxRetries : Nat) (accept : Option String)
    (targetUrl : String) (upstream : Nat → Except (AxiosError δ) (AxiosResponse δ))
    (resp : AxiosResponse δ)
    (hvalid : isValidUrl parse bh bp targetUrl = true)
    (hfetch : (makeRequest upstream maxRetries).1 = Except.ok resp) :
    (proxyHandler parse bh bp fl maxRetries accept targetUrl upstream).1
      = dispatchSuccess fl (isApiRequest targetUrl accept) resp := by
  unfold proxyHandler
  rw [hvalid]
  simp [hfetch]

/-- The handler on a valid URL with an exhausted fetch dispatches the
final error. -/
theorem proxyHandler_valid_err {δ : Type} (parse : String → Option URL)
    (bh bp fl : List String) (maxRetries : Nat) (accept : Option String)
    (targetUrl : String) (upstream : Nat → Except (AxiosError δ) (AxiosResponse δ))
    (e : AxiosError δ)
    (hvalid : isValidUrl parse bh bp targetUrl = true)
    (hfetch : (makeRequest upstream maxRetries).1 = Except.error e) :
    (proxyHandler parse bh bp fl maxRetries accept targetUrl upstream).1
      = dispatchError e := by
  unfold proxyHandler
  rw [hvalid]
  simp [hfetch]

/-- C3 counterexample: a stream-mode success whose upstream status is 206:
the success path sets headers and pipes but never sets a status, so the
client receives the Express default 200, not the upstream 206 the claim
asserts. -/
theorem proxy_stream_status_not_preserved :
    ((proxyHandler exampleParse defaultBlockedHostnames defaultBlockedHostPrefixes
        defaultFilteredHeaders 2 none "http://example.com/video.mp4"
        (fun _ => Except.ok exampleStreamResponse)).1.status = 200)
    ∧ exampleStreamResponse.status = 206 ∧ (200 : Nat) ≠ 206 := by
  refine ⟨?_, rfl, by decide⟩
  rfl

/-- C3 (amended): for every successful stream-mode fetch through a valid
URL, the client response carries status 200 — the Express default; the
upstream status, e.g. 206, is not copied onto the client response — with
exactly the sanitized upstream headers (so every filtered name,
`set-cookie` included, is absent even if the upstream sent it) and the
upstream byte stream piped to the client. -/
theorem proxy_stream_success_spec {δ : Type} (parse : String → Option URL)
    (bh bp fl : List String) (maxRetries : Nat) (accept : Option String)
    (targetUrl : String) (upstream : Nat → Except (AxiosError δ) (AxiosResponse δ))
    (resp : AxiosResponse δ)
    (hvalid : isValidUrl parse bh bp targetUrl = true)
    (hmode : isApiRequest targetUrl accept = false)
    (hfetch : (makeRequest upstream maxRetries).1 = Except.ok resp) :
    (proxyHandler parse bh bp fl maxRetries accept targetUrl upstream).1
      = { status := 200, headers := sanitizeHeaders fl resp.headers,
          body := ResponseBody.piped resp.data } ∧
    ∀ n ∈ fl, ∀ v,
      (n, v) ∉ (proxyHandler parse bh bp fl maxRetries accept targetUrl upstream).1.headers := by
  have hmain := proxyHandler_valid_ok parse bh bp fl maxRetries accept targetUrl
    upstream resp hvalid hfetch
  rw [hmode] at hmain
  unfold dispatchSuccess at hmain
  simp only [if_neg] at hmain
  constructor
  · simpa using hmain
  · intro n hn v
    rw [hmain]
    intro hmem
    have := ((sanitizeHeaders_mem_iff fl resp.headers (n, v)).1 (by simpa using hmem)).2
    exact this hn

/-- Witness for C3 (amended): concrete stream-mode 206 success; the client
sees 200, the piped bytes, and the sanitized headers without `set-cookie`. -/
theorem proxy_stream_success_spec_witness :
    (proxyHandler exampleParse defaultBlockedHostnames defaultBlockedHostPrefixes
        defaultFilteredHeaders 2 none "http://example.com/video.mp4"
        (fun _ => Except.ok exampleStreamResponse)).1
      = { status := 200, headers := [("content-type", "video/mp4")],
          body := ResponseBody.piped 42 } := by
  have h := proxy_stream_success_spec exampleParse defaultBlockedHostnames
    defaultBlockedHostPrefixes defaultFilteredHeaders 2 none
    "http://example.com/video.mp4" (fun _ => Except.ok exampleStreamResponse)
    exampleStreamResponse (by decide) (by decide) rfl
  rw [h.1]
  rfl

/-- C6: a request whose target URL fails validation is answered 400
(`无效的 URL`) with zero upstream calls made; a request on which no upstream
status was ever obtained — every attempt failing with an axios error
carrying no `response` — is answered 500 with the descriptive message
`` `请求失败: ${error.message}` `` built from the final failure. -/
theorem proxy_validation_and_transport_spec {δ : Type} (parse : String → Option URL)
    (bh bp fl : List String) (maxRetries : Nat) (accept : Option String)
    (targetUrl : String) (upstream : Nat → Except (AxiosError δ) (AxiosResponse δ)) :
    (isValidUrl parse bh bp targetUrl = false →
      proxyHandler parse bh bp fl maxRetries accept targetUrl upstream
        = ({ status := 400, headers := [], body := ResponseBody.text "无效的 URL" }, 0))
    ∧ (∀ msg : String, isValidUrl parse bh bp targetUrl = true →
        (∀ k, k ≤ maxRetries → ∃ m, upstream k = Except.error ⟨m, none⟩) →
        upstream maxRetries = Except.error ⟨msg, none⟩ →
        (proxyHandler parse bh bp fl maxRetries accept targetUrl upstream).1
          = { status := 500, headers := [],
              body := ResponseBody.text ("请求失败: " ++ msg) }) := by
  constructor
  · intro h
    exact proxyHandler_invalid parse bh bp fl maxRetries accept targetUrl upstream h
  · intro msg hvalid hall hlast
    obtain ⟨e, he, hmk⟩ := makeRequestAux_all_fail upstream maxRetries 0
      (fun k h1 h2 => by
        obtain ⟨m, hm⟩ := hall k (by omega)
        exact ⟨⟨m, none⟩, hm⟩)
    rw [Nat.zero_add] at he
    have he' : e = (⟨msg, none⟩ : AxiosError δ) := by
      injection he.symm.trans hlast
    subst he'
    have hh := proxyHandler_valid_err parse bh bp fl maxRetries accept targetUrl
      upstream _ hvalid (by unfold makeRequest; rw [hmk])
    rw [hh]
    rfl

/-- Witness for C6: the blocked loopback target answers 400 with zero
upstream calls; total transport failure answers 500 with the message. -/
theorem proxy_validation_and_transport_spec_witness :
    (proxyHandler exampleParse defaultBlockedHostnames defaultBlockedHostPrefixes
        defaultFilteredHeaders 2 none "http://127.0.0.1/x" exampleTransportUpstream
      = ({ status := 400, headers := [], body := ResponseBody.text "无效的 URL" }, 0))
    ∧ (proxyHandler exampleParse defaultBlockedHostnames defaultBlockedHostPrefixes
        defaultFilteredHeaders 2 none "http://example.com/video.mp4"
        exampleTransportUpstream).1
      = { status := 500, headers := [],
          body := ResponseBody.text "请求失败: connect ECONNREFUSED" } := by
  constructor
  · exact (proxy_validation_and_transport_spec exampleParse defaultBlockedHostnames
      defaultBlockedHostPrefixes defaultFilteredHeaders 2 none "http://127.0.0.1/x"
      exampleTransportUpstream).1 (by decide)
  · have h := (proxy_validation_and_transport_spec exampleParse defaultBlockedHostnames
      defaultBlockedHostPrefixes defaultFilteredHeaders 2 none
      "http://example.com/video.mp4" exampleTransportUpstream).2
      "connect ECONNREFUSED" (by decide) (fun k _ => ⟨"connect ECONNREFUSED", rfl⟩) rfl
    rw [h]
    rfl

/-- C8: when every attempt fails and the final failure carries an upstream
response with a nonzero (non-2xx) status, the client receives that status —
not 500 — and the fault body is relayed as-is: piped when streamable, sent
unchanged when textual and non-empty, and replaced by the generic message
`代理请求失败` exactly when the non-streamable body is empty or absent. -/
theorem proxy_upstream_status_fault_spec {δ : Type} (parse : String → Option URL)
    (bh bp fl : List String) (maxRetries : Nat) (accept : Option String)
    (targetUrl : String) (upstream : Nat → Except (AxiosError δ) (AxiosResponse δ))
    (st : Nat) (ed : ErrorData δ) (m : String)
    (hvalid : isValidUrl parse bh bp targetUrl = true)
    (hfail : ∀ k, k ≤ maxRetries → ∃ e, upstream k = Except.error e)
    (hlast : upstream maxRetries = Except.error ⟨m, some ⟨st, ed⟩⟩)
    (hst : st ≠ 0) :
    ((proxyHandler parse bh bp fl maxRetries accept targetUrl upstream).1.status = st)
    ∧ (∀ d, ed = ErrorData.pipeableStream d →
        (proxyHandler parse bh bp fl maxRetries accept targetUrl upstream).1.body
          = ResponseBody.piped d)
    ∧ (∀ s, ed = ErrorData.textual s → s ≠ "" →
        (proxyHandler parse bh bp fl maxRetries accept targetUrl upstream).1.body
          = ResponseBody.text s)
    ∧ ((ed = ErrorData.absent ∨ ed = ErrorData.textual "") →
        (proxyHandler parse bh bp fl maxRetries accept targetUrl upstream).1.body
          = ResponseBody.text "代理请求失败") := by
  obtain ⟨e, he, hmk⟩ := makeRequestAux_all_fail upstream maxRetries 0
    (fun k h1 h2 => hfail k (by omega))
  rw [Nat.zero_add] at he
  have he' : e = (⟨m, some ⟨st, ed⟩⟩ : AxiosError δ) := by
    injection he.symm.trans hlast
  subst he'
  have hh := proxyHandler_valid_err parse bh bp fl maxRetries accept targetUrl
    upstream _ hvalid (by unfold makeRequest; rw [hmk])
  rw [hh]
  unfold dispatchError orElse500
  cases ed with
  | pipeableStream d => simp [hst]
  | textual s =>
    by_cases hs : s = ""
    · subst hs
      simp [hst]
    · simp [hst, hs]
  | absent => simp [hst]

/-- Witness for C8: an upstream answering 404 with the non-streamable
non-empty body `Not Found` on every attempt is relayed as 404/`Not Found`,
not as 500. -/
theorem proxy_upstream_status_fault_spec_witness :
    (proxyHandler exampleParse defaultBlockedHostnames defaultBlockedHostPrefixes
        defaultFilteredHeaders 2 none "http://example.com/video.mp4"
        exampleStatusFaultUpstream).1.status = 404
    ∧ (proxyHandler exampleParse defaultBlockedHostnames defaultBlockedHostPrefixes
        defaultFilteredHeaders 2 none "http://example.com/video.mp4"
        exampleStatusFaultUpstream).1.body = ResponseBody.text "Not Found" := by
  have h := proxy_upstream_status_fault_spec exampleParse defaultBlockedHostnames
    defaultBlockedHostPrefixes defaultFilteredHeaders 2 none
    "http://example.com/video.mp4" exampleStatusFaultUpstream
    404 (ErrorData.textual "Not Found") "Request failed with status code 404"
    (by decide) (fun k _ => ⟨_, rfl⟩) rfl (by decide)
  exact ⟨h.1, h.2.2.1 "Not Found" rfl (by decide)⟩

/-- C9: every successful json-mode fetch is answered with status 200 and
the parsed body as the JSON response document, whatever the upstream's
actual (2xx) status was — the upstream status is not preserved on this
path. -/
theorem proxy_json_success_spec {δ : Type} (parse : String → Option URL)
    (bh bp fl : List String) (maxRetries : Nat) (accept : Option String)
    (targetUrl : String) (upstream : Nat → Except (AxiosError δ) (AxiosResponse δ))
    (resp : AxiosResponse δ)
    (hvalid : isValidUrl parse bh bp targetUrl = true)
    (hmode : isApiRequest targetUrl accept = true)
    (hfetch : (makeRequest upstream maxRetries).1 = Except.ok resp) :
    (proxyHandler parse bh bp fl maxRetries accept targetUrl upstream).1
      = { status := 200, headers := sanitizeHeaders fl resp.headers,
          body := ResponseBody.jsonData resp.data } := by
  have hmain := proxyHandler_valid_ok parse bh bp fl maxRetries accept targetUrl
    upstream resp hvalid hfetch
  rw [hmode] at hmain
  rw [hmain]
  rfl

/-- Witness for C9: a json-mode fetch whose upstream status is 206 is still
answered 200 with the JSON document. -/
theorem proxy_json_success_spec_witness :
    (proxyHandler exampleParse defaultBlockedHostnames defaultBlockedHostPrefixes
        defaultFilteredHeaders 2 none
        "http://api.example.com/api.php/provide/vod/?wd=a"
        (fun _ => Except.ok ({ status := 206, headers := [], data := 9 }
          : AxiosResponse Nat))).1
      = { status := 200, headers := [], body := ResponseBody.jsonData 9 } := by
  have h := proxy_json_success_spec exampleParse defaultBlockedHostnames
    defaultBlockedHostPrefixes defaultFilteredHeaders 2 none
    "http://api.example.com/api.php/provide/vod/?wd=a"
    (fun _ => Except.ok ({ status := 206, headers := [], data := 9 }
      : AxiosResponse Nat))
    { status := 206, headers := [], data := 9 } (by decide) (by decide) rfl
  rw [h]
  rfl

/-- `encodeURIComponent` of the empty string is the empty string. -/
theorem encodeURIComponent_empty : encodeURIComponent "" = "" := rfl

/-- The search composition factored through the shared base resolution. -/
theorem composeSearchUrl_eq (sites : String → Option SiteEntry)
    (heimuerEntry : SiteEntry) (searchPath : String)
    (wd source customApi : Option String) :
    composeSearchUrl sites heimuerEntry searchPath wd source customApi
      = resolveBase sites heimuerEntry source customApi ++ searchPath
          ++ encodeURIComponent (wd.getD "") := by
  unfold composeSearchUrl resolveBase
  cases htc : truthyOpt customApi
  · cases hls : lookupSource sites source <;> simp [htc, hls]
  · simp [htc]

/-- The detail composition factored through the shared base resolution; the
id is appended raw. -/
theorem composeDetailUrl_eq (sites : String → Option SiteEntry)
    (heimuerEntry : SiteEntry) (detailPath : String)
    (id source customApi : Option String) :
    composeDetailUrl sites heimuerEntry detailPath id source customApi
      = resolveBase sites heimuerEntry source customApi ++ detailPath
          ++ id.getD "" := by
  unfold composeDetailUrl resolveBase
  cases htc : truthyOpt customApi
  · cases hls : lookupSource sites source <;> simp [htc, hls]
  · simp [htc]

/-- C4 counterexample: for a detail id containing a space the composed URL
carries the raw id, while the claim's URL-encoded composition (modelled
verbatim from the spec as `specComposeDetailUrl`) carries `%20`; the two
URLs differ. -/
theorem detail_id_not_urlencoded :
    composeDetailUrl (fun _ => none) ⟨"https://json.heimuer.xyz"⟩
        "/api.php/provide/vod/?ac=detail&ids=" (some "a b") none none
      = "https://json.heimuer.xyz/api.php/provide/vod/?ac=detail&ids=a b"
    ∧ specComposeDetailUrl (fun _ => none) ⟨"https://json.heimuer.xyz"⟩
        "/api.php/provide/vod/?ac=detail&ids=" (some "a b") none none
      = "https://json.heimuer.xyz/api.php/provide/vod/?ac=detail&ids=a%20b"
    ∧ ("https://json.heimuer.xyz/api.php/provide/vod/?ac=detail&ids=a b"
        : String)
      ≠ "https://json.heimuer.xyz/api.php/provide/vod/?ac=detail&ids=a%20b" := by
  refine ⟨?_, ?_, ?_⟩ <;> decide

/-- C4 (amended): for both operations the composed upstream URL is the
resolved base — `customApi` when truthy, else the registry entry when
`source` is truthy and known, else the fixed default `heimuer` entry —
concatenated with the operation's configured path template and the query
parameter, which is URL-encoded for the search keyword but appended raw
(not URL-encoded) for the detail id. -/
theorem composeUrl_spec (sites : String → Option SiteEntry)
    (heimuerEntry : SiteEntry) (searchPath detailPath : String)
    (wd id source customApi : Option String) :
    composeSearchUrl sites heimuerEntry searchPath wd source customApi
      = resolveBase sites heimuerEntry source customApi ++ searchPath
          ++ encodeURIComponent (wd.getD "")
    ∧ composeDetailUrl sites heimuerEntry detailPath id source customApi
      = resolveBase sites heimuerEntry source customApi ++ detailPath ++ id.getD ""
    ∧ (truthyOpt customApi = true →
        resolveBase sites heimuerEntry source customApi = customApi.getD "")
    ∧ (∀ s entry, truthyOpt customApi = false → source = some s → s ≠ "" →
        sites s = some entry →
        resolveBase sites heimuerEntry source customApi = entry.api)
    ∧ (truthyOpt customApi = false → lookupSource sites source = none →
        resolveBase sites heimuerEntry source customApi = heimuerEntry.api) := by
  refine ⟨composeSearchUrl_eq sites heimuerEntry searchPath wd source customApi,
    composeDetailUrl_eq sites heimuerEntry detailPath id source customApi,
    ?_, ?_, ?_⟩
  · intro h
    unfold resolveBase
    simp [h]
  · intro s entry hc hs hne hsite
    subst hs
    unfold resolveBase
    simp [hc, lookupSource, hne, hsite]
  · intro hc hnone
    unfold resolveBase
    simp [hc, hnone]

/-- Witness for C4 (amended): concrete compositions — an encoded search
keyword with the default base, and a customApi base taking precedence. -/
theorem composeUrl_spec_witness :
    composeSearchUrl (fun _ => none) ⟨"https://json.heimuer.xyz"⟩
        "/api.php/provide/vod/?ac=videolist&wd=" (some "te st") none none
      = "https://json.heimuer.xyz/api.php/provide/vod/?ac=videolist&wd=te%20st"
    ∧ resolveBase (fun _ => none) ⟨"https://json.heimuer.xyz"⟩ none none
      = "https://json.heimuer.xyz"
    ∧ resolveBase (fun _ => none) ⟨"https://json.heimuer.xyz"⟩ none
        (some "https://custom.example")
      = "https://custom.example" := by
  have h := composeUrl_spec (fun _ => none) ⟨"https://json.heimuer.xyz"⟩
    "/api.php/provide/vod/?ac=videolist&wd=" "/d" (some "te st") none none none
  have h2 := composeUrl_spec (fun _ => none) ⟨"https://json.heimuer.xyz"⟩
    "/api.php/provide/vod/?ac=videolist&wd=" "/d" (some "te st") none none
    (some "https://custom.example")
  refine ⟨?_, h.2.2.2.2 rfl rfl, h2.2.2.1 (by decide)⟩
  rw [h.1]
  decide

/-- C7: every failure of the delegated call in an aggregation endpoint is
answered with HTTP status 500 and the structured envelope
`{code: 500, msg: <operation message>, error: <failure detail>}` —
`API聚合失败` for search, `详情API失败` for detail — never a raw stream or a
raw propagated upstream status. -/
theorem agg_failure_envelope_spec {δ : Type}
    (d1 d2 : String → Except String δ) (sites : String → Option SiteEntry)
    (heimuerEntry : SiteEntry) (searchPath detailPath : String)
    (wd id source customApi : Option String) (m1 m2 : String)
    (h1 : d1 (composeSearchUrl sites heimuerEntry searchPath wd source customApi)
      = Except.error m1)
    (h2 : d2 (composeDetailUrl sites heimuerEntry detailPath id source customApi)
      = Except.error m2) :
    searchHandler d1 sites heimuerEntry searchPath wd source customApi
      = { status := 500, body := AggBody.envelope ⟨500, "API聚合失败", m1⟩ }
    ∧ detailHandler d2 sites heimuerEntry detailPath id source customApi
      = { status := 500, body := AggBody.envelope ⟨500, "详情API失败", m2⟩ } := by
  constructor
  · unfold searchHandler
    rw [h1]
  · unfold detailHandler
    rw [h2]

/-- Witness for C7: a delegate failing with `socket hang up` yields the two
envelopes. -/
theorem agg_failure_envelope_spec_witness :
    searchHandler (fun _ => (Except.error "socket hang up" : Except String Nat))
        (fun _ => none) ⟨"https://json.heimuer.xyz"⟩ "/s" none none none
      = { status := 500,
          body := AggBody.envelope ⟨500, "API聚合失败", "socket hang up"⟩ }
    ∧ detailHandler (fun _ => (Except.error "socket hang up" : Except String Nat))
        (fun _ => none) ⟨"https://json.heimuer.xyz"⟩ "/d" none none none
      = { status := 500,
          body := AggBody.envelope ⟨500, "详情API失败", "socket hang up"⟩ } :=
  agg_failure_envelope_spec
    (fun _ => (Except.error "socket hang up" : Except String Nat))
    (fun _ => (Except.error "socket hang up" : Except String Nat))
    (fun _ => none) ⟨"https://json.heimuer.xyz"⟩ "/s" "/d"
    none none none none "socket hang up" "socket hang up" rfl rfl

/-- C10: with the search `wd` or detail `id` query parameter absent, the
parameter defaults to the empty string: the composed URL is exactly the
resolved base plus the path template, the handlers behave as if `""` had
been supplied, and the request is still delegated rather than rejected —
a successful delegate answer comes back as the JSON document. -/
theorem agg_missing_param_defaults {δ : Type} (delegate : String → Except String δ)
    (sites : String → Option SiteEntry) (heimuerEntry : SiteEntry)
    (searchPath detailPath : String) (source customApi : Option String) :
    composeSearchUrl sites heimuerEntry searchPath none source customApi
      = resolveBase sites heimuerEntry source customApi ++ searchPath
    ∧ composeDetailUrl sites heimuerEntry detailPath none source customApi
      = resolveBase sites heimuerEntry source customApi ++ detailPath
    ∧ searchHandler delegate sites heimuerEntry searchPath none source customApi
      = searchHandler delegate sites heimuerEntry searchPath (some "") source customApi
    ∧ detailHandler delegate sites heimuerEntry detailPath none source customApi
      = detailHandler delegate sites heimuerEntry detailPath (some "") source customApi
    ∧ (∀ d : δ,
        delegate (composeSearchUrl sites heimuerEntry searchPath none source customApi)
          = Except.ok d →
        searchHandler delegate sites heimuerEntry searchPath none source customApi
          = { status := 200, body := AggBody.jsonData d }) := by
  refine ⟨?_, ?_, rfl, rfl, ?_⟩
  · rw [composeSearchUrl_eq]
    simp [encodeURIComponent_empty]
  · rw [composeDetailUrl_eq]
    simp
  · intro d hd
    unfold searchHandler
    rw [hd]

/-- Witness for C10: with `wd` absent the composed URL is the default base
plus the search path, and a successful delegate answer is returned as
JSON. -/
theorem agg_missing_param_defaults_witness :
    composeSearchUrl (fun _ => none) ⟨"https://json.heimuer.xyz"⟩
        "/api.php/provide/vod/?ac=videolist&wd=" none none none
      = "https://json.heimuer.xyz/api.php/provide/vod/?ac=videolist&wd="
    ∧ searchHandler (fun _ => (Except.ok 3 : Except String Nat)) (fun _ => none)
        ⟨"https://json.heimuer.xyz"⟩ "/api.php/provide/vod/?ac=videolist&wd="
        none none none
      = { status := 200, body := AggBody.jsonData 3 } := by
  have h := agg_missing_param_defaults (fun _ => (Except.ok 3 : Except String Nat))
    (fun _ => none) ⟨"https://json.heimuer.xyz"⟩
    "/api.php/provide/vod/?ac=videolist&wd=" "/d" none none
  refine ⟨?_, h.2.2.2.2 3 rfl⟩
  rw [h.1]
  decide

end MyTV
